import Mathlib

/-!
# Verification of the `arize/llm_rag_evaluator` guardrails validator

Shallow embedding of `src/validator/main.py`: the three prompt-generation
strategies, the judge-client adapter `get_llm_response`, and the evaluator
`LlmRagEvaluator.validate`.  The external LiteLLM `completion` call is a
parameter of type `String → String → Except String String` (model id and
prompt in, either the first choice's message content or the exception text
out); Python exceptions are modelled with `Except String`.
-/

set_option linter.unusedVariables false

namespace Validator

/-- The whitespace characters removed by Python's `str.strip()` (ASCII part). -/
def pyIsSpace (c : Char) : Bool :=
  c = ' ' || c = '\t' || c = '\n' || c = '\r' || c = '\x0b' || c = '\x0c'

/-- Python `str.strip()`: remove leading and trailing whitespace. -/
def pyStrip (s : String) : String :=
  ⟨((s.data.dropWhile pyIsSpace).reverse.dropWhile pyIsSpace).reverse⟩

/-- Python `str.lower()` (ASCII case mapping). -/
def pyLower (s : String) : String :=
  ⟨s.data.map Char.toLower⟩

/-- `listHasPre needle hay`: `needle` is an initial segment of `hay`. -/
def listHasPre : List Char → List Char → Bool
  | [], _ => true
  | _ :: _, [] => false
  | c :: cs, d :: ds => if c = d then listHasPre cs ds else false

/-- `listHasSub needle hay`: `needle` occurs contiguously inside `hay`. -/
def listHasSub (needle : List Char) : List Char → Bool
  | [] => listHasPre needle []
  | d :: ds => listHasPre needle (d :: ds) || listHasSub needle ds

/-- `strContains hay needle`: `needle` is a contiguous substring of `hay`. -/
def strContains (hay needle : String) : Bool :=
  listHasSub needle.data hay.data

/-- The metadata dictionary passed to `validate`: string keys, values that are
either a string or Python `None` (`Option.none`). -/
structure Metadata where
  entries : List (String × Option String)

/-- Python `dict.get(key)`: `none` when the key is absent *or* mapped to `None`. -/
def Metadata.get (md : Metadata) (k : String) : Option String :=
  match md.entries.lookup k with
  | some v => v
  | none => none

/-- The host framework's validation verdicts (`PassResult` / `FailResult`). -/
inductive ValidationResult where
  | PassResult : ValidationResult
  | FailResult (error_message : String) : ValidationResult
deriving DecidableEq, Repr

/-- The three concrete subclasses of `ArizeRagEvalPromptBase`. -/
inductive ArizeRagEvalPromptBase where
  | ContextRelevancyPrompt : ArizeRagEvalPromptBase
  | HallucinationPrompt : ArizeRagEvalPromptBase
  | QACorrectnessPrompt : ArizeRagEvalPromptBase
deriving DecidableEq, Repr

/-- `ContextRelevancyPrompt.generate_prompt` (main.py lines 29-46).  The
f-string interpolates only the question and the reference text. -/
def ContextRelevancyPrompt.generate_prompt
    (user_input_message reference_text llm_response : String) : String :=
  "\n            You are comparing a reference text to a question and trying to determine if the reference text\n            contains information relevant to answering the question. Here is the data:\n                [BEGIN DATA]\n                ************\n                [Question]: "
  ++ user_input_message
  ++ "\n                ************\n                [Reference text]: "
  ++ reference_text
  ++ "\n                ************\n                [END DATA]\n            Compare the Question above to the Reference text. You must determine whether the Reference text\n            contains information that can answer the Question. Please focus on whether the very specific\n            question can be answered by the information in the Reference text.\n            Your response must be single word, either \"relevant\" or \"unrelated\",\n            and should not contain any text or characters aside from that word.\n            \"unrelated\" means that the reference text does not contain an answer to the Question.\n            \"relevant\" means the reference text contains an answer to the Question."

/-- `HallucinationPrompt.generate_prompt` (main.py lines 50-76). -/
def HallucinationPrompt.generate_prompt
    (user_input_message reference_text llm_response : String) : String :=
  "\n            In this task, you will be presented with a query, a reference text and an answer. The answer is\n            generated to the question based on the reference text. The answer may contain false information. You\n            must use the reference text to determine if the answer to the question contains false information,\n            if the answer is a hallucination of facts. Your objective is to determine whether the answer text\n            contains factual information and is not a hallucination. A \'hallucination\' refers to\n            an answer that is not based on the reference text or assumes information that is not available in\n            the reference text. Your response should be a single word: either \"factual\" or \"hallucinated\", and\n            it should not include any other text or characters. \"hallucinated\" indicates that the answer\n            provides factually inaccurate information to the query based on the reference text. \"factual\"\n            indicates that the answer to the question is correct relative to the reference text, and does not\n            contain made up information. Please read the query and reference text carefully before determining\n            your response.\n\n                [BEGIN DATA]\n                ************\n                [Query]: "
  ++ user_input_message
  ++ "\n                ************\n                [Reference text]: "
  ++ reference_text
  ++ "\n                ************\n                [Answer]: "
  ++ llm_response
  ++ "\n                ************\n                [END DATA]\n\n                Is the answer above factual or hallucinated based on the query and reference text?\n            "

/-- `QACorrectnessPrompt.generate_prompt` (main.py lines 80-97). -/
def QACorrectnessPrompt.generate_prompt
    (user_input_message reference_text llm_response : String) : String :=
  "\n            You are given a question, an answer and reference text. You must determine whether the\n            given answer correctly answers the question based on the reference text. Here is the data:\n                [BEGIN DATA]\n                ************\n                [Question]: "
  ++ user_input_message
  ++ "\n                ************\n                [Reference]: "
  ++ reference_text
  ++ "\n                ************\n                [Answer]: "
  ++ llm_response
  ++ "\n                [END DATA]\n            Your response must be a single word, either \"correct\" or \"incorrect\",\n            and should not contain any text or characters aside from that word.\n            \"correct\" means that the question is correctly and fully answered by the answer.\n            \"incorrect\" means that the question is not correctly or only partially answered by the\n            answer.\n            "

/-- Virtual dispatch of `generate_prompt` over the three concrete subclasses. -/
def ArizeRagEvalPromptBase.generate_prompt :
    ArizeRagEvalPromptBase → String → String → String → String
  | .ContextRelevancyPrompt => ContextRelevancyPrompt.generate_prompt
  | .HallucinationPrompt => HallucinationPrompt.generate_prompt
  | .QACorrectnessPrompt => QACorrectnessPrompt.generate_prompt

/-- The evaluator's configuration: the constructor arguments stored on `self`
in `LlmRagEvaluator.__init__` (main.py lines 117-136). -/
structure LlmRagEvaluator where
  eval_llm_prompt_generator : ArizeRagEvalPromptBase
  llm_evaluator_fail_response : String
  llm_evaluator_pass_response : String
  llm_callable : String

/-- `LlmRagEvaluator.get_llm_response` (main.py lines 138-166): invoke the
external `completion` with the configured model and the prompt; on success
strip whitespace and lowercase the first choice's content; on any exception
re-raise a generic `RuntimeError` carrying the original exception text. -/
def LlmRagEvaluator.get_llm_response (self : LlmRagEvaluator)
    (completion : String → String → Except String String)
    (prompt : String) : Except String String :=
  match completion self.llm_callable prompt with
  | Except.ok response => Except.ok (pyLower (pyStrip response))
  | Except.error e => Except.error ("Error getting response from the LLM: " ++ e)

/-- The metadata-extraction and prompt-setup phase of
`LlmRagEvaluator.validate` (main.py lines 185-206): raise if `user_message`
or `context` is missing, apply the `llm_response` override when present and
non-`None`, then build the prompt with the configured generator. -/
def LlmRagEvaluator.built_prompt (self : LlmRagEvaluator)
    (value : String) (metadata : Metadata) : Except String String :=
  match metadata.get "user_message" with
  | none =>
    Except.error "original_prompt missing from value. Please provide the original prompt."
  | some user_input_message =>
    match metadata.get "context" with
    | none =>
      Except.error "\'reference_text\' missing from value. Please provide the reference text."
    | some reference_text =>
      let value := match metadata.get "llm_response" with
        | some v => v
        | none => value
      Except.ok (self.eval_llm_prompt_generator.generate_prompt
        user_input_message reference_text value)

/-- `LlmRagEvaluator.validate` (main.py lines 168-221): build the prompt,
invoke the judge, then compare the normalized response first against the fail
token, then against the pass token. -/
def LlmRagEvaluator.validate (self : LlmRagEvaluator)
    (completion : String → String → Except String String)
    (value : String) (metadata : Metadata) : Except String ValidationResult :=
  match self.built_prompt value metadata with
  | Except.error e => Except.error e
  | Except.ok prompt =>
    match self.get_llm_response completion prompt with
    | Except.error e => Except.error e
    | Except.ok llm_response =>
      if llm_response = self.llm_evaluator_fail_response then
        Except.ok (ValidationResult.FailResult
          ("The LLM says " ++ self.llm_evaluator_fail_response ++ ". The validation failed."))
      else if llm_response = self.llm_evaluator_pass_response then
        Except.ok ValidationResult.PassResult
      else
        Except.ok (ValidationResult.FailResult
          "The LLM returned an invalid answer. Failing the validation...")

/-- A result that is a raised exception (not a returned verdict). -/
def isFatal : Except String ValidationResult → Bool
  | Except.error _ => true
  | Except.ok _ => false

/-- A result that is a returned `FailResult` verdict. -/
def isFail : Except String ValidationResult → Bool
  | Except.ok (ValidationResult.FailResult _) => true
  | _ => false

end Validator

namespace Validator

deriving instance DecidableEq for Except

/-! ## Helper lemmas about substring containment -/

theorem listHasPre_self (s t : List Char) : listHasPre s (s ++ t) = true := by
  induction s with
  | nil => simp [listHasPre]
  | cons c cs ih => simp [listHasPre, ih]

theorem listHasPre_ext (s : List Char) (a b : List Char) (h : listHasPre s a = true) :
    listHasPre s (a ++ b) = true := by
  induction s generalizing a with
  | nil => simp [listHasPre]
  | cons c cs ih =>
    cases a with
    | nil => simp [listHasPre] at h
    | cons d ds =>
      simp only [listHasPre, List.cons_append] at h ⊢
      by_cases hcd : c = d
      · simp only [hcd, if_true] at h ⊢
        exact ih ds h
      · simp [hcd] at h

theorem listHasPre_nil_eq (s : List Char) (h : listHasPre s [] = true) : s = [] := by
  cases s with
  | nil => rfl
  | cons c cs => simp [listHasPre] at h

theorem listHasSub_of_pre (s l : List Char) (h : listHasPre s l = true) :
    listHasSub s l = true := by
  cases l with
  | nil => simpa [listHasSub] using h
  | cons d ds => simp [listHasSub, h]

theorem listHasSub_nil (l : List Char) : listHasSub [] l = true := by
  cases l <;> simp [listHasSub, listHasPre]

theorem listHasSub_append_left (a b s : List Char) (h : listHasSub s b = true) :
    listHasSub s (a ++ b) = true := by
  induction a with
  | nil => simpa using h
  | cons d ds ih => simp [listHasSub, ih]

theorem listHasSub_append_right (a b s : List Char) (h : listHasSub s a = true) :
    listHasSub s (a ++ b) = true := by
  induction a with
  | nil =>
    have hs : s = [] := listHasPre_nil_eq s (by simpa [listHasSub] using h)
    subst hs
    exact listHasSub_nil b
  | cons d ds ih =>
    simp only [listHasSub, Bool.or_eq_true] at h
    cases h with
    | inl hp =>
      have hext := listHasPre_ext s (d :: ds) b hp
      simp only [List.cons_append] at hext
      simp [listHasSub, hext]
    | inr hs => simp [listHasSub, ih hs]

theorem listHasSub_refl (s : List Char) : listHasSub s s = true :=
  listHasSub_of_pre s s (by simpa using listHasPre_self s [])

theorem strData_append (a b : String) : (a ++ b).data = a.data ++ b.data := rfl

theorem strContains_refl (s : String) : strContains s s = true :=
  listHasSub_refl s.data

theorem strContains_append_left (a b s : String) (h : strContains b s = true) :
    strContains (a ++ b) s = true := by
  unfold strContains at h ⊢
  rw [strData_append]
  exact listHasSub_append_left a.data b.data s.data h

theorem strContains_append_right (a b s : String) (h : strContains a s = true) :
    strContains (a ++ b) s = true := by
  unfold strContains at h ⊢
  rw [strData_append]
  exact listHasSub_append_right a.data b.data s.data h

/-! ## Helper lemmas unfolding the evaluator -/

theorem built_prompt_some (cfg : LlmRagEvaluator) (value : String) (md : Metadata)
    (u c : String)
    (hu : md.get "user_message" = some u) (hc : md.get "context" = some c) :
    cfg.built_prompt value md =
      Except.ok (cfg.eval_llm_prompt_generator.generate_prompt u c
        (match md.get "llm_response" with | some v => v | none => value)) := by
  unfold LlmRagEvaluator.built_prompt
  rw [hu, hc]

theorem validate_ok_unfold (cfg : LlmRagEvaluator)
    (completion : String → String → Except String String)
    (value : String) (md : Metadata) (prompt raw : String)
    (hp : cfg.built_prompt value md = Except.ok prompt)
    (hcall : completion cfg.llm_callable prompt = Except.ok raw) :
    cfg.validate completion value md =
      (if pyLower (pyStrip raw) = cfg.llm_evaluator_fail_response then
        Except.ok (ValidationResult.FailResult
          ("The LLM says " ++ cfg.llm_evaluator_fail_response ++ ". The validation failed."))
      else if pyLower (pyStrip raw) = cfg.llm_evaluator_pass_response then
        Except.ok ValidationResult.PassResult
      else
        Except.ok (ValidationResult.FailResult
          "The LLM returned an invalid answer. Failing the validation...")) := by
  simp only [LlmRagEvaluator.validate, LlmRagEvaluator.get_llm_response, hp, hcall]

theorem validate_err_unfold (cfg : LlmRagEvaluator)
    (completion : String → String → Except String String)
    (value : String) (md : Metadata) (prompt e : String)
    (hp : cfg.built_prompt value md = Except.ok prompt)
    (hcall : completion cfg.llm_callable prompt = Except.error e) :
    cfg.validate completion value md =
      Except.error ("Error getting response from the LLM: " ++ e) := by
  simp only [LlmRagEvaluator.validate, LlmRagEvaluator.get_llm_response, hp, hcall]

/-! ## Claim theorems -/

/-- C1 counterexample: for the configuration whose pass token and fail token are
both "yes" and a stubbed judge returning exactly the configured pass token "yes"
on metadata with non-None user_message and context, `validate` does not return
a Pass verdict — refuting the claim as stated, which quantifies over every
evaluator configuration. -/
theorem c1_counterexample :
    (LlmRagEvaluator.mk ArizeRagEvalPromptBase.ContextRelevancyPrompt
        "yes" "yes" "gpt-4").validate
        (fun _ _ => Except.ok "yes") "v"
        (Metadata.mk [("user_message", some "q"), ("context", some "c")])
      ≠ Except.ok ValidationResult.PassResult := by
  decide

/-- C1 (amended): for every evaluator configuration whose pass token differs
from its fail token, and every metadata map with non-None user_message and
context, if the judge client's normalized response equals the configured pass
token then `validate` returns a Pass verdict. -/
theorem c1_pass_token_yields_pass (cfg : LlmRagEvaluator)
    (completion : String → String → Except String String)
    (value : String) (md : Metadata) (u c raw : String)
    (hu : md.get "user_message" = some u) (hc : md.get "context" = some c)
    (hcall : ∀ m p, completion m p = Except.ok raw)
    (hnorm : pyLower (pyStrip raw) = cfg.llm_evaluator_pass_response)
    (hne : cfg.llm_evaluator_pass_response ≠ cfg.llm_evaluator_fail_response) :
    cfg.validate completion value md = Except.ok ValidationResult.PassResult := by
  rw [validate_ok_unfold cfg completion value md _ raw
    (built_prompt_some cfg value md u c hu hc) (hcall _ _)]
  rw [hnorm, if_neg hne, if_pos rfl]

/-- C1 witness: a concrete configuration (pass "relevant", fail "unrelated"),
stubbed judge returning " Relevant \n", valid metadata — validate passes. -/
theorem c1_pass_token_yields_pass_witness :
    (LlmRagEvaluator.mk ArizeRagEvalPromptBase.QACorrectnessPrompt
        "unrelated" "relevant" "gpt-4").validate
        (fun _ _ => Except.ok " Relevant \n") "v"
        (Metadata.mk [("user_message", some "q"), ("context", some "c")])
      = Except.ok ValidationResult.PassResult :=
  c1_pass_token_yields_pass
    (LlmRagEvaluator.mk ArizeRagEvalPromptBase.QACorrectnessPrompt
      "unrelated" "relevant" "gpt-4")
    (fun _ _ => Except.ok " Relevant \n") "v"
    (Metadata.mk [("user_message", some "q"), ("context", some "c")])
    "q" "c" " Relevant \n"
    (by decide) (by decide) (fun _ _ => rfl) (by decide) (by decide)

/-- C2: for every evaluator configuration and metadata map with non-None
user_message and context, if the judge client's normalized response equals the
configured fail token then `validate` returns a Fail verdict whose error
message contains that fail token. -/
theorem c2_fail_token_yields_fail (cfg : LlmRagEvaluator)
    (completion : String → String → Except String String)
    (value : String) (md : Metadata) (u c raw : String)
    (hu : md.get "user_message" = some u) (hc : md.get "context" = some c)
    (hcall : ∀ m p, completion m p = Except.ok raw)
    (hnorm : pyLower (pyStrip raw) = cfg.llm_evaluator_fail_response) :
    cfg.validate completion value md =
      Except.ok (ValidationResult.FailResult
        ("The LLM says " ++ cfg.llm_evaluator_fail_response ++ ". The validation failed.")) ∧
    strContains
      ("The LLM says " ++ cfg.llm_evaluator_fail_response ++ ". The validation failed.")
      cfg.llm_evaluator_fail_response = true := by
  constructor
  · rw [validate_ok_unfold cfg completion value md _ raw
      (built_prompt_some cfg value md u c hu hc) (hcall _ _)]
    rw [hnorm, if_pos rfl]
  · exact strContains_append_right _ _ _
      (strContains_append_left _ _ _ (strContains_refl _))

/-- C2 witness: concrete configuration (fail "unrelated"), stubbed judge
returning "Unrelated ", valid metadata — validate fails naming the token. -/
theorem c2_fail_token_yields_fail_witness :
    (LlmRagEvaluator.mk ArizeRagEvalPromptBase.ContextRelevancyPrompt
        "unrelated" "relevant" "gpt-4").validate
        (fun _ _ => Except.ok "Unrelated ") "v"
        (Metadata.mk [("user_message", some "q"), ("context", some "c")])
      = Except.ok (ValidationResult.FailResult
        ("The LLM says " ++ "unrelated" ++ ". The validation failed.")) ∧
    strContains ("The LLM says " ++ "unrelated" ++ ". The validation failed.")
      "unrelated" = true :=
  c2_fail_token_yields_fail
    (LlmRagEvaluator.mk ArizeRagEvalPromptBase.ContextRelevancyPrompt
      "unrelated" "relevant" "gpt-4")
    (fun _ _ => Except.ok "Unrelated ") "v"
    (Metadata.mk [("user_message", some "q"), ("context", some "c")])
    "q" "c" "Unrelated "
    (by decide) (by decide) (fun _ _ => rfl) (by decide)

/-- C3: for every evaluator configuration and metadata map with non-None
user_message and context, if the judge client's normalized response equals
neither the fail token nor the pass token, `validate` returns a Fail verdict
with the generic invalid-answer message. -/
theorem c3_other_response_generic_fail (cfg : LlmRagEvaluator)
    (completion : String → String → Except String String)
    (value : String) (md : Metadata) (u c raw : String)
    (hu : md.get "user_message" = some u) (hc : md.get "context" = some c)
    (hcall : ∀ m p, completion m p = Except.ok raw)
    (hnf : pyLower (pyStrip raw) ≠ cfg.llm_evaluator_fail_response)
    (hnp : pyLower (pyStrip raw) ≠ cfg.llm_evaluator_pass_response) :
    cfg.validate completion value md =
      Except.ok (ValidationResult.FailResult
        "The LLM returned an invalid answer. Failing the validation...") := by
  rw [validate_ok_unfold cfg completion value md _ raw
    (built_prompt_some cfg value md u c hu hc) (hcall _ _)]
  rw [if_neg hnf, if_neg hnp]

/-- C3 witness: stubbed judge returning "maybe", which is neither token —
validate fails with the generic invalid-answer message. -/
theorem c3_other_response_generic_fail_witness :
    (LlmRagEvaluator.mk ArizeRagEvalPromptBase.ContextRelevancyPrompt
        "unrelated" "relevant" "gpt-4").validate
        (fun _ _ => Except.ok "maybe") "v"
        (Metadata.mk [("user_message", some "q"), ("context", some "c")])
      = Except.ok (ValidationResult.FailResult
        "The LLM returned an invalid answer. Failing the validation...") :=
  c3_other_response_generic_fail
    (LlmRagEvaluator.mk ArizeRagEvalPromptBase.ContextRelevancyPrompt
      "unrelated" "relevant" "gpt-4")
    (fun _ _ => Except.ok "maybe") "v"
    (Metadata.mk [("user_message", some "q"), ("context", some "c")])
    "q" "c" "maybe"
    (by decide) (by decide) (fun _ _ => rfl) (by decide) (by decide)

/-- C4: the fail token is compared first, so when the pass token equals the
fail token, `validate` returns a Fail verdict whatever (successful) response
the judge produces on metadata with non-None user_message and context. -/
theorem c4_equal_tokens_always_fail (cfg : LlmRagEvaluator)
    (completion : String → String → Except String String)
    (value : String) (md : Metadata) (u c raw : String)
    (hu : md.get "user_message" = some u) (hc : md.get "context" = some c)
    (hcall : ∀ m p, completion m p = Except.ok raw)
    (heq : cfg.llm_evaluator_pass_response = cfg.llm_evaluator_fail_response) :
    isFail (cfg.validate completion value md) = true := by
  rw [validate_ok_unfold cfg completion value md _ raw
    (built_prompt_some cfg value md u c hu hc) (hcall _ _)]
  by_cases h : pyLower (pyStrip raw) = cfg.llm_evaluator_fail_response
  · simp [h, isFail]
  · simp [h, heq, isFail]

/-- C4 witness: pass and fail token both "yes"; judge returns the token itself
— the verdict is still Fail. -/
theorem c4_equal_tokens_always_fail_witness :
    isFail
      ((LlmRagEvaluator.mk ArizeRagEvalPromptBase.ContextRelevancyPrompt
          "yes" "yes" "gpt-4").validate
        (fun _ _ => Except.ok "yes") "v"
        (Metadata.mk [("user_message", some "q"), ("context", some "c")])) = true :=
  c4_equal_tokens_always_fail
    (LlmRagEvaluator.mk ArizeRagEvalPromptBase.ContextRelevancyPrompt
      "yes" "yes" "gpt-4")
    (fun _ _ => Except.ok "yes") "v"
    (Metadata.mk [("user_message", some "q"), ("context", some "c")])
    "q" "c" "yes"
    (by decide) (by decide) (fun _ _ => rfl) (by decide)

/-- C5: when the key user_message or the key context is absent or mapped to
None, `validate` raises a fatal error (an `Except.error`), returns no Fail
verdict, and its result does not depend on the judge client at all — the
judge is never consulted. -/
theorem c5_missing_metadata_fatal (cfg : LlmRagEvaluator)
    (completion completion' : String → String → Except String String)
    (value : String) (md : Metadata)
    (h : md.get "user_message" = none ∨ md.get "context" = none) :
    isFatal (cfg.validate completion value md) = true ∧
    isFail (cfg.validate completion value md) = false ∧
    cfg.validate completion value md = cfg.validate completion' value md := by
  cases hu : md.get "user_message" with
  | none =>
    simp [LlmRagEvaluator.validate, LlmRagEvaluator.built_prompt, hu, isFatal, isFail]
  | some u =>
    have hc : md.get "context" = none := by
      cases h with
      | inl h1 => rw [hu] at h1; exact absurd h1 (by simp)
      | inr h2 => exact h2
    simp [LlmRagEvaluator.validate, LlmRagEvaluator.built_prompt, hu, hc, isFatal, isFail]

/-- C5 witness: metadata lacking user_message — the result is a raised error,
not a Fail verdict, and two judges that answer differently give the same
result. -/
theorem c5_missing_metadata_fatal_witness :
    isFatal
      ((LlmRagEvaluator.mk ArizeRagEvalPromptBase.ContextRelevancyPrompt
          "unrelated" "relevant" "gpt-4").validate
        (fun _ _ => Except.ok "relevant") "v"
        (Metadata.mk [("context", some "c")])) = true ∧
    isFail
      ((LlmRagEvaluator.mk ArizeRagEvalPromptBase.ContextRelevancyPrompt
          "unrelated" "relevant" "gpt-4").validate
        (fun _ _ => Except.ok "relevant") "v"
        (Metadata.mk [("context", some "c")])) = false ∧
    (LlmRagEvaluator.mk ArizeRagEvalPromptBase.ContextRelevancyPrompt
        "unrelated" "relevant" "gpt-4").validate
      (fun _ _ => Except.ok "relevant") "v"
      (Metadata.mk [("context", some "c")]) =
    (LlmRagEvaluator.mk ArizeRagEvalPromptBase.ContextRelevancyPrompt
        "unrelated" "relevant" "gpt-4").validate
      (fun _ _ => Except.error "down") "v"
      (Metadata.mk [("context", some "c")]) :=
  c5_missing_metadata_fatal
    (LlmRagEvaluator.mk ArizeRagEvalPromptBase.ContextRelevancyPrompt
      "unrelated" "relevant" "gpt-4")
    (fun _ _ => Except.ok "relevant") (fun _ _ => Except.error "down") "v"
    (Metadata.mk [("context", some "c")])
    (Or.inl (by decide))

/-- C6 counterexample: metadata containing the key llm_response mapped to None
— the prompt is nevertheless built from the value argument "v", refuting the
claim that containing the key alone triggers the override. -/
theorem c6_counterexample :
    ((Metadata.mk [("user_message", some "q"), ("context", some "c"),
        ("llm_response", none)]).entries.lookup "llm_response" = some none) ∧
    (LlmRagEvaluator.mk ArizeRagEvalPromptBase.QACorrectnessPrompt
        "incorrect" "correct" "gpt-4").built_prompt "v"
        (Metadata.mk [("user_message", some "q"), ("context", some "c"),
          ("llm_response", none)])
      = Except.ok (QACorrectnessPrompt.generate_prompt "q" "c" "v") :=
  ⟨by decide, rfl⟩

/-- C6 (amended): the prompt handed to the judge is built from the metadata's
llm_response value when that key is present with a non-None value, and from
the value argument otherwise: it is the prompt generated from user_message,
context and that effective answer. -/
theorem c6_llm_response_override (cfg : LlmRagEvaluator)
    (value : String) (md : Metadata) (u c w : String)
    (hu : md.get "user_message" = some u) (hc : md.get "context" = some c)
    (hw : md.get "llm_response" = some w ∨
      (md.get "llm_response" = none ∧ w = value)) :
    cfg.built_prompt value md =
      Except.ok (cfg.eval_llm_prompt_generator.generate_prompt u c w) := by
  rw [built_prompt_some cfg value md u c hu hc]
  cases hw with
  | inl h1 => simp only [h1]
  | inr h2 => simp only [h2.left, h2.right]

/-- C6 witness: metadata overriding the answer with "ans" — the built prompt
is generated from "ans", not the value argument "v". -/
theorem c6_llm_response_override_witness :
    (LlmRagEvaluator.mk ArizeRagEvalPromptBase.QACorrectnessPrompt
        "incorrect" "correct" "gpt-4").built_prompt "v"
        (Metadata.mk [("user_message", some "q"), ("context", some "c"),
          ("llm_response", some "ans")])
      = Except.ok
          ((ArizeRagEvalPromptBase.QACorrectnessPrompt).generate_prompt "q" "c" "ans") :=
  c6_llm_response_override
    (LlmRagEvaluator.mk ArizeRagEvalPromptBase.QACorrectnessPrompt
      "incorrect" "correct" "gpt-4") "v"
    (Metadata.mk [("user_message", some "q"), ("context", some "c"),
      ("llm_response", some "ans")])
    "q" "c" "ans" (by decide) (by decide) (Or.inl (by decide))

/-- C10: when the metadata maps llm_response to None, the override is not
applied and the prompt is built from the value argument, exactly as when the
key is absent. -/
theorem c10_none_override_ignored (cfg : LlmRagEvaluator)
    (value : String) (md : Metadata) (u c : String)
    (hu : md.get "user_message" = some u) (hc : md.get "context" = some c)
    (hr : md.entries.lookup "llm_response" = some none) :
    cfg.built_prompt value md =
      Except.ok (cfg.eval_llm_prompt_generator.generate_prompt u c value) := by
  have h : md.get "llm_response" = none := by
    unfold Metadata.get
    rw [hr]
  rw [built_prompt_some cfg value md u c hu hc]
  simp only [h]

/-- C10 witness: llm_response present but None — the prompt uses the value
argument "v". -/
theorem c10_none_override_ignored_witness :
    (LlmRagEvaluator.mk ArizeRagEvalPromptBase.HallucinationPrompt
        "hallucinated" "factual" "gpt-4").built_prompt "v"
        (Metadata.mk [("user_message", some "q"), ("context", some "c"),
          ("llm_response", none)])
      = Except.ok
          ((ArizeRagEvalPromptBase.HallucinationPrompt).generate_prompt "q" "c" "v") :=
  c10_none_override_ignored
    (LlmRagEvaluator.mk ArizeRagEvalPromptBase.HallucinationPrompt
      "hallucinated" "factual" "gpt-4") "v"
    (Metadata.mk [("user_message", some "q"), ("context", some "c"),
      ("llm_response", none)])
    "q" "c" (by decide) (by decide) (by decide)

/-- C7: for every raw judge-model response, the string the evaluator goes on
to compare against the tokens is that response with surrounding whitespace
stripped and all characters lowercased. -/
theorem c7_normalization (cfg : LlmRagEvaluator)
    (completion : String → String → Except String String)
    (prompt raw : String)
    (hcall : completion cfg.llm_callable prompt = Except.ok raw) :
    cfg.get_llm_response completion prompt = Except.ok (pyLower (pyStrip raw)) := by
  simp only [LlmRagEvaluator.get_llm_response, hcall]

/-- C7 witness: the raw response " Relevant \n" is normalized to "relevant". -/
theorem c7_normalization_witness :
    (LlmRagEvaluator.mk ArizeRagEvalPromptBase.ContextRelevancyPrompt
        "unrelated" "relevant" "gpt-4").get_llm_response
        (fun _ _ => Except.ok " Relevant \n") "p" = Except.ok "relevant" :=
  (c7_normalization
    (LlmRagEvaluator.mk ArizeRagEvalPromptBase.ContextRelevancyPrompt
      "unrelated" "relevant" "gpt-4")
    (fun _ _ => Except.ok " Relevant \n") "p" " Relevant \n" rfl).trans (by decide)

/-- C9: when the judge call throws, get_llm_response produces the single
generic runtime error whose text carries the original exception text, and
validate (on complete metadata) propagates exactly that error rather than
converting it into a Fail verdict. -/
theorem c9_wrapped_error (cfg : LlmRagEvaluator)
    (completion : String → String → Except String String)
    (value : String) (md : Metadata) (u c e prompt0 : String)
    (hu : md.get "user_message" = some u) (hc : md.get "context" = some c)
    (hcall : ∀ m p, completion m p = Except.error e) :
    cfg.get_llm_response completion prompt0 =
      Except.error ("Error getting response from the LLM: " ++ e) ∧
    cfg.validate completion value md =
      Except.error ("Error getting response from the LLM: " ++ e) ∧
    strContains ("Error getting response from the LLM: " ++ e) e = true := by
  refine ⟨?_, ?_, ?_⟩
  · simp only [LlmRagEvaluator.get_llm_response, hcall]
  · exact validate_err_unfold cfg completion value md _ e
      (built_prompt_some cfg value md u c hu hc) (hcall _ _)
  · exact strContains_append_left _ _ _ (strContains_refl _)

/-- C9 witness: a judge that always throws "boom" — the wrapped error is
raised by get_llm_response, propagated unchanged by validate, and mentions
"boom". -/
theorem c9_wrapped_error_witness :
    (LlmRagEvaluator.mk ArizeRagEvalPromptBase.ContextRelevancyPrompt
        "unrelated" "relevant" "gpt-4").get_llm_response
        (fun _ _ => Except.error "boom") "p" =
      Except.error ("Error getting response from the LLM: " ++ "boom") ∧
    (LlmRagEvaluator.mk ArizeRagEvalPromptBase.ContextRelevancyPrompt
        "unrelated" "relevant" "gpt-4").validate
        (fun _ _ => Except.error "boom") "v"
        (Metadata.mk [("user_message", some "q"), ("context", some "c")]) =
      Except.error ("Error getting response from the LLM: " ++ "boom") ∧
    strContains ("Error getting response from the LLM: " ++ "boom") "boom" = true :=
  c9_wrapped_error
    (LlmRagEvaluator.mk ArizeRagEvalPromptBase.ContextRelevancyPrompt
      "unrelated" "relevant" "gpt-4")
    (fun _ _ => Except.error "boom") "v"
    (Metadata.mk [("user_message", some "q"), ("context", some "c")])
    "q" "c" "boom" "p"
    (by decide) (by decide) (fun _ _ => rfl)

set_option maxRecDepth 100000 in
/-- C8 counterexample: the context-relevancy prompt generated from question
"Q1", reference "R1" and candidate answer "zqzq" does not contain the
candidate answer — that template interpolates only the question and the
reference text. -/
theorem c8_counterexample :
    strContains (ContextRelevancyPrompt.generate_prompt "Q1" "R1" "zqzq") "zqzq"
      = false := by
  decide

/-- C8 (amended): for every question, reference text and candidate answer, the
hallucination and QA-correctness prompts contain all three inputs verbatim as
substrings, and the context-relevancy prompt contains the question and the
reference text verbatim (its template ignores the candidate answer). -/
theorem c8_inputs_in_prompts (q r a : String) :
    strContains (HallucinationPrompt.generate_prompt q r a) q = true ∧
    strContains (HallucinationPrompt.generate_prompt q r a) r = true ∧
    strContains (HallucinationPrompt.generate_prompt q r a) a = true ∧
    strContains (QACorrectnessPrompt.generate_prompt q r a) q = true ∧
    strContains (QACorrectnessPrompt.generate_prompt q r a) r = true ∧
    strContains (QACorrectnessPrompt.generate_prompt q r a) a = true ∧
    strContains (ContextRelevancyPrompt.generate_prompt q r a) q = true ∧
    strContains (ContextRelevancyPrompt.generate_prompt q r a) r = true := by
  refine ⟨?_, ?_, ?_, ?_, ?_, ?_, ?_, ?_⟩
  · simp only [HallucinationPrompt.generate_prompt]
    exact strContains_append_right _ _ _ (strContains_append_right _ _ _
      (strContains_append_right _ _ _ (strContains_append_right _ _ _
        (strContains_append_right _ _ _
          (strContains_append_left _ _ _ (strContains_refl q))))))
  · simp only [HallucinationPrompt.generate_prompt]
    exact strContains_append_right _ _ _ (strContains_append_right _ _ _
      (strContains_append_right _ _ _
        (strContains_append_left _ _ _ (strContains_refl r))))
  · simp only [HallucinationPrompt.generate_prompt]
    exact strContains_append_right _ _ _
      (strContains_append_left _ _ _ (strContains_refl a))
  · simp only [QACorrectnessPrompt.generate_prompt]
    exact strContains_append_right _ _ _ (strContains_append_right _ _ _
      (strContains_append_right _ _ _ (strContains_append_right _ _ _
        (strContains_append_right _ _ _
          (strContains_append_left _ _ _ (strContains_refl q))))))
  · simp only [QACorrectnessPrompt.generate_prompt]
    exact strContains_append_right _ _ _ (strContains_append_right _ _ _
      (strContains_append_right _ _ _
        (strContains_append_left _ _ _ (strContains_refl r))))
  · simp only [QACorrectnessPrompt.generate_prompt]
    exact strContains_append_right _ _ _
      (strContains_append_left _ _ _ (strContains_refl a))
  · simp only [ContextRelevancyPrompt.generate_prompt]
    exact strContains_append_right _ _ _ (strContains_append_right _ _ _
      (strContains_append_right _ _ _
        (strContains_append_left _ _ _ (strContains_refl q))))
  · simp only [ContextRelevancyPrompt.generate_prompt]
    exact strContains_append_right _ _ _
      (strContains_append_left _ _ _ (strContains_refl r))

end Validator
